import Mathlib

/-!
Verification of the netsim on-chip network simulator (router.cpp / router.h).

This file gives a shallow embedding of the simulator's data model and of the
router pipeline functions in Lean 4, translated from `src/router.cpp`, and
proves the behavioural properties claimed about them.

Modelling conventions:
* C `int` / `long` fields become `Int`; sizes and loop counters become `Nat`.
* Simulation times are `Nat` (the event queue starts at time 0 and is
  monotone); `last_tick` is `Int` because it is initialised to `-1`.
* `assert(...)` failures (protocol errors) are modelled by returning `none`
  from an `Option`-valued function.
* stb dynamic arrays (`arrput`) become `List` with append; the stb hash maps
  of `Topology` become association lists keyed by the `RouterPortPair`
  itself (the C code keys on a hash of the pair's bytes; collisions aside,
  the key is the pair).
* Calls to `EventQueue::reschedule` made by `Channel::put`/`put_credit` only
  schedule a wakeup of the peer node; they do not change any state modelled
  here and are dropped.  The router's own `mark_reschedule` flag
  (`reschedule_next_tick`) is modelled.
* Debug printing (`dprintf`, `print_flit`, ...) is state-free and dropped.
-/

set_option autoImplicit false

namespace Netsim

/-- Modelled from the spec: node identity (`event.h` is not under `src/`).
A tagged identifier with variants Source / Router / Destination. -/
inductive IdKind
  | src
  | dst
  | rtr
  deriving DecidableEq

/-- Modelled from the spec: a node id is a kind tag plus an integer index. -/
structure Id where
  type : IdKind
  value : Int
  deriving DecidableEq

/-- Modelled from the spec: `is_src` tests the Source tag. -/
def is_src (i : Id) : Bool := i.type = IdKind.src

/-- Modelled from the spec: `is_dst` tests the Destination tag. -/
def is_dst (i : Id) : Bool := i.type = IdKind.dst

/-- Embeds `RouterPortPair` from router.h: a node id plus a port number. -/
structure RouterPortPair where
  id : Id
  port : Int
  deriving DecidableEq

/-- Embeds `Connection` from router.h (the `uniq` field is set by
`topology_connect` to the size of the forward map at insertion time). -/
structure Connection where
  src : RouterPortPair
  dst : RouterPortPair
  uniq : Int
  deriving DecidableEq

/-- Embeds `FlitType` from router.h. -/
inductive FlitType
  | head
  | body
  | tail
  deriving DecidableEq

/-- Embeds `RouteInfo` from router.h: source/destination node ids, the
source-computed path of output ports, and the index of the next hop. -/
structure RouteInfo where
  src : Int
  dst : Int
  path : List Int
  idx : Nat
  deriving DecidableEq

/-- Embeds `Flit` from router.h. -/
structure Flit where
  type : FlitType
  route_info : RouteInfo
  payload : Int
  deriving DecidableEq

instance : Inhabited Flit := ⟨⟨FlitType.body, ⟨0, 3, [], 0⟩, 0⟩⟩

/-- Embeds `Credit` from router.h: an opaque token (one VC per channel). -/
inductive Credit
  | mk
  deriving DecidableEq

/-- Embeds `TopoDesc` from router.h (`k`: ring size; `r`: dimension, unused here). -/
structure TopoDesc where
  k : Int
  r : Int
  deriving DecidableEq

/-! ## Channel (router.cpp lines 22-62)

A channel is a delay line: flits travel forward, credits travel backward,
each stamped with the release time `curr_time + delay` at enqueue. -/

/-- The common buffer discipline of `Channel::put` / `Channel::put_credit`:
append the item stamped with release time `curr_time + delay`. -/
def chanPut {α : Type} (curr_time delay : Nat) (x : α) (buf : List (Nat × α)) :
    List (Nat × α) :=
  buf ++ [(curr_time + delay, x)]

/-- The common buffer discipline of `Channel::get` / `Channel::get_credit`:
if the buffer is non-empty and the head's release time has been reached, the
head must be released exactly now (`assert(curr_time == front->first)`,
modelled as `none` on violation) and is popped; otherwise nothing is
returned and the buffer is unchanged.  The outer `Option` is the assertion,
the inner `Option` is the returned item. -/
def chanGet {α : Type} (curr_time : Nat) (buf : List (Nat × α)) :
    Option (Option α × List (Nat × α)) :=
  match buf with
  | [] => some (none, [])
  | (rt, x) :: rest =>
    if rt ≤ curr_time then
      if curr_time = rt then some (some x, rest) else none
    else
      some (none, (rt, x) :: rest)

/-- Channel state: propagation delay, forward flit buffer, backward credit
buffer (router.h `Channel`; the endpoints and the event queue reference are
dropped, see the header comment). -/
structure ChannelState where
  delay : Nat
  buf : List (Nat × Flit)
  buf_credit : List (Nat × Credit)
  deriving DecidableEq

/-- Embeds `Channel::put` (router.cpp line 27). -/
def ChannelState.put (t : Nat) (flit : Flit) (c : ChannelState) : ChannelState :=
  { c with buf := chanPut t c.delay flit c.buf }

/-- Embeds `Channel::put_credit` (router.cpp line 33). -/
def ChannelState.put_credit (t : Nat) (credit : Credit) (c : ChannelState) :
    ChannelState :=
  { c with buf_credit := chanPut t c.delay credit c.buf_credit }

/-- Embeds `Channel::get` (router.cpp line 39). -/
def ChannelState.get (t : Nat) (c : ChannelState) :
    Option (Option Flit × ChannelState) :=
  match chanGet t c.buf with
  | none => none
  | some (r, buf) => some (r, { c with buf := buf })

/-- Embeds `Channel::get_credit` (router.cpp line 52). -/
def ChannelState.get_credit (t : Nat) (c : ChannelState) :
    Option (Option Credit × ChannelState) :=
  match chanGet t c.buf_credit with
  | none => none
  | some (r, buf) => some (r, { c with buf_credit := buf })

/-! ## Topology (router.cpp lines 71-174) -/

/-- An stb hash map keyed by `RouterPortPair` (see header comment). -/
abbrev HMap : Type := List (RouterPortPair × Connection)

/-- Performs an `hmgeti`-style lookup: first binding of the key, if any. -/
def hmget (m : HMap) (k : RouterPortPair) : Option Connection :=
  (List.find? (fun e => decide (e.1 = k)) m).map (fun e => e.2)

/-- Performs an stb `hmput`: replace the binding if the key is present, else append. -/
def hmput (m : HMap) (k : RouterPortPair) (v : Connection) : HMap :=
  match m with
  | [] => [(k, v)]
  | e :: rest => if e.1 = k then (k, v) :: rest else e :: hmput rest k v

/-- Embeds `Topology` from router.h: forward and reverse connection maps. -/
structure Topology where
  forward_hash : HMap
  reverse_hash : HMap
  deriving DecidableEq

/-- Embeds `topology_connect` (router.cpp line 85): fails, leaving the maps
untouched, when the source side is already a forward key or the destination
side is already a reverse key; otherwise records the connection in both
maps.  Returns the C function's `bool` along with the updated topology. -/
def topology_connect (t : Topology) (input output : RouterPortPair) :
    Bool × Topology :=
  if (hmget t.forward_hash input).isSome ∨ (hmget t.reverse_hash output).isSome
  then
    (false, t)
  else
    let uniq : Int := t.forward_hash.length
    let conn : Connection := ⟨input, output, uniq⟩
    (true, ⟨hmput t.forward_hash input conn, hmput t.reverse_hash output conn⟩)

/-! ## Source routing (router.cpp lines 269-293) -/

/-- Runs `n` iterations of `arrput(path, v)`. -/
def arrputN (path : List Int) (v : Int) : Nat → List Int
  | 0 => path
  | n + 1 => arrputN (path ++ [v]) v n

/-- Embeds `source_route_compute` (router.cpp line 270): clockwise distance
`cw_dist = (dst - src + k) % k` (C truncated `%`, i.e. `Int.tmod`); emit
`cw_dist` copies of port 2 then port 0 if `cw_dist <= k / 2` (C truncated
division), else `k - cw_dist` copies of port 1 then port 0. -/
def source_route_compute (td : TopoDesc) (src_id dst_id : Int) : List Int :=
  let total : Int := td.k
  let cw_dist : Int := (dst_id - src_id + total).tmod total
  if cw_dist ≤ total.tdiv 2 then
    arrputN [] 2 cw_dist.toNat ++ [0]
  else
    arrputN [] 1 (total - cw_dist).toNat ++ [0]

/-! ## Router state (router.h lines 173-282) -/

/-- Embeds `PipelineStage` from router.h. -/
inductive PipelineStage
  | idle
  | rc
  | va
  | sa
  | st
  deriving DecidableEq

/-- Embeds `GlobalState` from router.h. -/
inductive GlobalState
  | idle
  | routing
  | vcwait
  | active
  | credwait
  deriving DecidableEq

/-- Embeds `InputUnit` from router.h. -/
structure InputUnit where
  global : GlobalState
  next_global : GlobalState
  route_port : Int
  output_vc : Int
  stage : PipelineStage
  buf : List Flit
  st_ready : Option Flit
  deriving DecidableEq

/-- Embeds `OutputUnit` from router.h. -/
structure OutputUnit where
  global : GlobalState
  next_global : GlobalState
  input_port : Int
  input_vc : Int
  credit_count : Int
  buf_credit : Option Credit
  deriving DecidableEq

/-- Embeds `input_unit_create` (router.cpp line 196); the `bufsize` argument only
sizes the ring-buffer capacity, which a `List` does not need. -/
def input_unit_create : InputUnit :=
  ⟨GlobalState.idle, GlobalState.idle, -1, 0, PipelineStage.idle, [], none⟩

/-- Embeds `output_unit_create` (router.cpp line 211): credits start at the
downstream buffer capacity. -/
def output_unit_create (bufsize : Int) : OutputUnit :=
  ⟨GlobalState.idle, GlobalState.idle, -1, 0, bufsize, none⟩

instance : Inhabited InputUnit := ⟨input_unit_create⟩

instance : Inhabited OutputUnit := ⟨output_unit_create 0⟩

instance : Inhabited ChannelState := ⟨⟨0, [], []⟩⟩

/-- The state of one node (`Router` from router.h).  The event-queue and
allocator references are dropped (see the header comment); `stat` is
inlined as the `double_tick_count` field. -/
structure Router where
  id : Id
  flit_arrive_count : Int
  flit_gen_count : Int
  top_desc : TopoDesc
  input_buf_size : Nat
  last_tick : Int
  last_reschedule_tick : Int
  flit_payload_counter : Int
  reschedule_next_tick : Bool
  input_channels : List ChannelState
  output_channels : List ChannelState
  input_units : List InputUnit
  output_units : List OutputUnit
  va_last_grant_input : Nat
  sa_last_grant_input : Nat
  double_tick_count : Int
  deriving DecidableEq

/-- Embeds `Router::get_radix`: the number of ports. -/
def Router.get_radix (r : Router) : Nat := r.input_units.length

/-- Runs a per-port body for ports `start, start+1, ...` (`n` of them),
threading the router state and propagating assertion failures: the
`for (port = 0; port < get_radix(); port++)` loops of router.cpp. -/
def portFold (f : Nat → Router → Option Router) : Nat → Nat → Router → Option Router
  | _, 0, r => some r
  | i, n + 1, r => (f i r).bind (portFold f (i + 1) n)

/-! ## Arbiters (router.cpp lines 574-631) -/

/-- The scan loop of `Router::vc_arbit_round_robin`: starting at `iport`,
visit `n` ports (wrapping mod `radix`) and grant the first whose
`global == VCWait` and `route_port == out_port`.  On a grant the code
asserts `stage == PIPELINE_VA`; `none` models that assertion failing,
`some none` means no requester. -/
def vc_arbit_loop (units : List InputUnit) (out_port : Int) (radix : Nat) :
    Nat → Nat → Option (Option Nat)
  | 0, _ => some none
  | n + 1, iport =>
    let iu := units.getD iport default
    if iu.global = GlobalState.vcwait ∧ iu.route_port = out_port then
      if iu.stage = PipelineStage.va then some (some iport) else none
    else
      vc_arbit_loop units out_port radix n ((iport + 1) % radix)

/-- Embeds `Router::vc_arbit_round_robin` (router.cpp line 574): scan starts at
`(va_last_grant_input + 1) % radix`; `va_last_grant_input` is updated only
on a grant.  The C function returns `-1` for "no requester", modelled as
`none`. -/
def Router.vc_arbit_round_robin (r : Router) (out_port : Int) :
    Option (Option Nat × Router) :=
  let radix := r.get_radix
  match vc_arbit_loop r.input_units out_port radix radix
      ((r.va_last_grant_input + 1) % radix) with
  | none => none
  | some none => some (none, r)
  | some (some ip) => some (some ip, { r with va_last_grant_input := ip })

/-- The scan loop of `Router::sa_arbit_round_robin`: grant the first port
whose `stage == SA`, `route_port == out_port` and `global == Active`
(ports in `CreditWait` only log a credit stall and are skipped). -/
def sa_arbit_loop (units : List InputUnit) (out_port : Int) (radix : Nat) :
    Nat → Nat → Option Nat
  | 0, _ => none
  | n + 1, iport =>
    let iu := units.getD iport default
    if iu.stage = PipelineStage.sa ∧ iu.route_port = out_port ∧
        iu.global = GlobalState.active then
      some iport
    else
      sa_arbit_loop units out_port radix n ((iport + 1) % radix)

/-- Embeds `Router::sa_arbit_round_robin` (router.cpp line 607): scan starts at
`(sa_last_grant_input + 1) % radix`; `sa_last_grant_input` is updated only
on a grant. -/
def Router.sa_arbit_round_robin (r : Router) (out_port : Int) :
    Option Nat × Router :=
  let radix := r.get_radix
  match sa_arbit_loop r.input_units out_port radix radix
      ((r.sa_last_grant_input + 1) % radix) with
  | some ip => (some ip, { r with sa_last_grant_input := ip })
  | none => (none, r)

/-! ## Pipeline stages (router.cpp lines 359-824) -/

/-- One iteration of the `Router::vc_alloc` loop (router.cpp line 633) for
output port `oport`. -/
def vc_alloc_body (oport : Nat) (r : Router) : Option Router :=
  let ou := r.output_units.getD oport default
  if ou.global = GlobalState.idle then
    match r.vc_arbit_round_robin (oport : Int) with
    | none => none
    | some (none, r1) => some r1
    | some (some iport, r1) =>
      let iu := r1.input_units.getD iport default
      let iu1 :=
        if ou.credit_count = 0 then { iu with next_global := GlobalState.credwait }
        else { iu with next_global := GlobalState.active }
      let ou1 :=
        if ou.credit_count = 0 then { ou with next_global := GlobalState.credwait }
        else { ou with next_global := GlobalState.active }
      let ou2 := { ou1 with input_port := (iport : Int) }
      let iu2 := { iu1 with stage := PipelineStage.sa }
      some { r1 with
        input_units := r1.input_units.set iport iu2,
        output_units := r1.output_units.set oport ou2,
        reschedule_next_tick := true }
  else
    some r

/-- Embeds `Router::vc_alloc` (router.cpp line 633). -/
def Router.vc_alloc (r : Router) : Option Router :=
  portFold vc_alloc_body 0 r.get_radix r

/-- One iteration of the `Router::switch_alloc` loop (router.cpp line 676)
for output port `oport`.  Assertions modelled as `none`: the granted input
buffer must be non-empty, the granted input must (still) be `Active`,
`st_ready` must be empty, and `credit_count` must be positive. -/
def switch_alloc_body (oport : Nat) (r : Router) : Option Router :=
  let ou := r.output_units.getD oport default
  if ou.global = GlobalState.active then
    match r.sa_arbit_round_robin (oport : Int) with
    | (none, r1) => some r1
    | (some iport, r1) =>
      let iu := r1.input_units.getD iport default
      match iu.buf with
      | [] => none
      | flit :: rest =>
        if iu.global = GlobalState.active then
          match iu.st_ready with
          | some _ => none
          | none =>
            if 0 < ou.credit_count then
              let iu1 := { iu with buf := rest, st_ready := some flit }
              let ou1 := { ou with credit_count := ou.credit_count - 1 }
              if flit.type = FlitType.tail then
                let ou2 := { ou1 with next_global := GlobalState.idle }
                let iu2 :=
                  if rest.isEmpty then
                    { iu1 with
                      next_global := GlobalState.idle,
                      stage := PipelineStage.idle }
                  else
                    { iu1 with
                      next_global := GlobalState.routing,
                      stage := PipelineStage.rc }
                some { r1 with
                  input_units := r1.input_units.set iport iu2,
                  output_units := r1.output_units.set oport ou2,
                  reschedule_next_tick := true }
              else if ou1.credit_count = 0 then
                let iu2 := { iu1 with next_global := GlobalState.credwait }
                let ou2 := { ou1 with next_global := GlobalState.credwait }
                some { r1 with
                  input_units := r1.input_units.set iport iu2,
                  output_units := r1.output_units.set oport ou2 }
              else
                let iu2 := { iu1 with
                  next_global := GlobalState.active,
                  stage := PipelineStage.sa }
                some { r1 with
                  input_units := r1.input_units.set iport iu2,
                  output_units := r1.output_units.set oport ou1,
                  reschedule_next_tick := true }
            else none
        else none
  else
    some r

/-- Embeds `Router::switch_alloc` (router.cpp line 676). -/
def Router.switch_alloc (r : Router) : Option Router :=
  portFold switch_alloc_body 0 r.get_radix r

/-- One iteration of the `Router::credit_update` loop (router.cpp line 483)
for output port `oport`.  With a parked credit: if `credit_count == 0`, a
pending `CreditWait` output (whose input is asserted to also be pending
`CreditWait`) is woken to `Active` together with its input, and reschedule
is marked (with or without a wakeup); then the credit count is incremented
and the parked credit cleared. -/
def credit_update_body (oport : Nat) (r : Router) : Option Router :=
  let ou := r.output_units.getD oport default
  match ou.buf_credit with
  | none => some r
  | some _ =>
    if ou.input_port = -1 then none
    else
      let iport := ou.input_port.toNat
      let iu := r.input_units.getD iport default
      if ou.credit_count = 0 then
        if ou.next_global = GlobalState.credwait then
          if iu.next_global = GlobalState.credwait then
            some { r with
              input_units := r.input_units.set iport
                { iu with next_global := GlobalState.active },
              output_units := r.output_units.set oport
                { ou with
                  next_global := GlobalState.active,
                  credit_count := ou.credit_count + 1, buf_credit := none },
              reschedule_next_tick := true }
          else none
        else
          some { r with
            output_units := r.output_units.set oport
              { ou with credit_count := ou.credit_count + 1, buf_credit := none },
            reschedule_next_tick := true }
      else
        some { r with
          output_units := r.output_units.set oport
            { ou with credit_count := ou.credit_count + 1, buf_credit := none } }

/-- Embeds `Router::credit_update` (router.cpp line 483). -/
def Router.credit_update (r : Router) : Option Router :=
  portFold credit_update_body 0 r.get_radix r

/-- One iteration of the `Router::route_compute` loop (router.cpp line 524)
for input port `iport`: read the next hop from the head flit's source
route, advance the flit's path index, and move to the VA stage. -/
def route_compute_body (iport : Nat) (r : Router) : Option Router :=
  let iu := r.input_units.getD iport default
  if iu.global = GlobalState.routing then
    match iu.buf with
    | [] => none
    | flit :: rest =>
      if flit.route_info.idx < flit.route_info.path.length then
        let rp := flit.route_info.path.getD flit.route_info.idx 0
        let flit1 := { flit with
          route_info := { flit.route_info with idx := flit.route_info.idx + 1 } }
        some { r with
          input_units := r.input_units.set iport
            { iu with
              route_port := rp, buf := flit1 :: rest,
              next_global := GlobalState.vcwait, stage := PipelineStage.va },
          reschedule_next_tick := true }
      else none
  else
    some r

/-- Embeds `Router::route_compute` (router.cpp line 524). -/
def Router.route_compute (r : Router) : Option Router :=
  portFold route_compute_body 0 r.get_radix r

/-- One iteration of the `Router::fetch_flit` loop (router.cpp line 432)
for input port `iport`: pull from the input channel; on success, kickstart
the pipeline if the buffer was empty, enqueue the flit, and enforce the
buffer bound. -/
def fetch_flit_body (t : Nat) (iport : Nat) (r : Router) : Option Router :=
  let ich := r.input_channels.getD iport default
  let iu := r.input_units.getD iport default
  match ich.get t with
  | none => none
  | some (none, ich1) =>
    some { r with input_channels := r.input_channels.set iport ich1 }
  | some (some flit, ich1) =>
    let iu1 :=
      if iu.buf.isEmpty ∧ iu.next_global = GlobalState.idle then
        { iu with next_global := GlobalState.routing, stage := PipelineStage.rc }
      else iu
    let iu2 := { iu1 with buf := iu1.buf ++ [flit] }
    if iu2.buf.length ≤ r.input_buf_size then
      some { r with
        input_channels := r.input_channels.set iport ich1,
        input_units := r.input_units.set iport iu2,
        reschedule_next_tick := r.reschedule_next_tick || iu.buf.isEmpty }
    else none

/-- Embeds `Router::fetch_flit` (router.cpp line 432). -/
def Router.fetch_flit (t : Nat) (r : Router) : Option Router :=
  portFold (fetch_flit_body t) 0 r.get_radix r

/-- One iteration of the `Router::fetch_credit` loop (router.cpp line 468)
for output port `oport`: pull from the output channel and park the credit. -/
def fetch_credit_body (t : Nat) (oport : Nat) (r : Router) : Option Router :=
  let och := r.output_channels.getD oport default
  let ou := r.output_units.getD oport default
  match och.get_credit t with
  | none => none
  | some (none, och1) =>
    some { r with output_channels := r.output_channels.set oport och1 }
  | some (some cr, och1) =>
    some { r with
      output_channels := r.output_channels.set oport och1,
      output_units := r.output_units.set oport { ou with buf_credit := some cr },
      reschedule_next_tick := true }

/-- Embeds `Router::fetch_credit` (router.cpp line 468). -/
def Router.fetch_credit (t : Nat) (r : Router) : Option Router :=
  portFold (fetch_credit_body t) 0 r.get_radix r

/-- One iteration of the `Router::switch_traverse` loop (router.cpp line
763) for input port `iport`: place the staged flit on the routed output
channel and return a credit on the input channel. -/
def switch_traverse_body (t : Nat) (iport : Nat) (r : Router) : Option Router :=
  let iu := r.input_units.getD iport default
  match iu.st_ready with
  | none => some r
  | some flit =>
    let op := iu.route_port.toNat
    let och := r.output_channels.getD op default
    let ich := r.input_channels.getD iport default
    some { r with
      input_units := r.input_units.set iport { iu with st_ready := none },
      output_channels := r.output_channels.set op (och.put t flit),
      input_channels := r.input_channels.set iport (ich.put_credit t Credit.mk) }

/-- Embeds `Router::switch_traverse` (router.cpp line 763). -/
def Router.switch_traverse (t : Nat) (r : Router) : Option Router :=
  portFold (switch_traverse_body t) 0 r.get_radix r

/-- The commit loop of `Router::update_states` (router.cpp line 802) over
the input/output unit lists in lockstep; returns the committed lists and
whether any unit changed state.  Committing an output unit to `CreditWait`
while it still has credits fails the `assert(false)`. -/
def update_states_aux :
    List InputUnit → List OutputUnit →
      Option (List InputUnit × List OutputUnit × Bool)
  | [], ous => some ([], ous, false)
  | _ :: _, [] => none
  | iu :: itl, ou :: otl =>
    let iu1 := if iu.global ≠ iu.next_global then { iu with global := iu.next_global } else iu
    let ch1 : Bool := iu.global ≠ iu.next_global
    if ou.global ≠ ou.next_global then
      if ou.next_global = GlobalState.credwait ∧ 0 < ou.credit_count then none
      else
        match update_states_aux itl otl with
        | none => none
        | some (ris, ros, _) =>
          some (iu1 :: ris, { ou with global := ou.next_global } :: ros, true)
    else
      match update_states_aux itl otl with
      | none => none
      | some (ris, ros, chrest) => some (iu1 :: ris, ou :: ros, ch1 || chrest)

/-- Embeds `Router::update_states` (router.cpp line 802): commit `next_global` to
`global` for every unit and mark reschedule when any commit changed state. -/
def Router.update_states (r : Router) : Option Router :=
  match update_states_aux r.input_units r.output_units with
  | none => none
  | some (ius, ous, changed) =>
    some { r with
      input_units := ius, output_units := ous,
      reschedule_next_tick := r.reschedule_next_tick || changed }

/-- Embeds `Router::do_reschedule` (router.cpp line 258): at most one self-tick
enqueue per cycle (the event-queue push itself is dropped, see header). -/
def Router.do_reschedule (t : Nat) (r : Router) : Router :=
  if r.reschedule_next_tick ∧ (t : Int) ≠ r.last_reschedule_tick then
    { r with last_reschedule_tick := (t : Int) }
  else r

/-- Embeds `Router::source_generate` (router.cpp line 359): with no credit, stall;
otherwise build one flit (Head with a computed route when the payload
counter is 0, Tail resetting the counter when it is 3, else Body), push it
on the single output channel, decrement the credit and mark reschedule. -/
def Router.source_generate (t : Nat) (r : Router) : Option Router :=
  let ou := r.output_units.getD 0 default
  if ou.credit_count ≤ 0 then some r
  else
    let flit0 : Flit :=
      ⟨FlitType.body, ⟨r.id.value, (r.id.value + 2).tmod 4, [], 0⟩,
        r.flit_payload_counter⟩
    let flit :=
      if r.flit_payload_counter = 0 then
        { flit0 with
          type := FlitType.head,
          route_info := { flit0.route_info with
            path := source_route_compute r.top_desc flit0.route_info.src
              flit0.route_info.dst } }
      else if r.flit_payload_counter = 3 then { flit0 with type := FlitType.tail }
      else flit0
    let counter :=
      if r.flit_payload_counter = 0 then r.flit_payload_counter + 1
      else if r.flit_payload_counter = 3 then 0
      else r.flit_payload_counter + 1
    if r.get_radix = 1 then
      match r.output_channels with
      | [] => none
      | och :: ochtl =>
        some { r with
          output_channels := och.put t flit :: ochtl,
          output_units := r.output_units.set 0
            { ou with credit_count := ou.credit_count - 1 },
          flit_payload_counter := counter,
          flit_gen_count := r.flit_gen_count + 1,
          reschedule_next_tick := true }
    else none

/-- Embeds `Router::destination_consume` (router.cpp line 403): consume one flit,
assert the buffer drained, return a credit upstream. -/
def Router.destination_consume (t : Nat) (r : Router) : Option Router :=
  let iu := r.input_units.getD 0 default
  match iu.buf with
  | [] => some r
  | _ :: rest =>
    if rest.isEmpty then
      match r.input_channels with
      | [] => none
      | ich :: ichtl =>
        some { r with
          input_units := r.input_units.set 0 { iu with buf := rest },
          flit_arrive_count := r.flit_arrive_count + 1,
          input_channels := ich.put_credit t Credit.mk :: ichtl,
          reschedule_next_tick := true }
    else none

/-- Embeds `Router::tick` (router.cpp line 295): double-tick suppression, then the
node-kind dispatch, the state-commit barrier, the single reschedule and the
`last_tick` stamp. -/
def Router.tick (t : Nat) (r : Router) : Option Router :=
  if (t : Int) = r.last_tick then
    some { r with double_tick_count := r.double_tick_count + 1 }
  else
    let r0 := { r with reschedule_next_tick := false }
    let step : Option Router :=
      if is_src r0.id then
        (r0.source_generate t).bind fun r1 =>
        r1.credit_update.bind fun r2 =>
        r2.fetch_credit t
      else if is_dst r0.id then
        (r0.destination_consume t).bind fun r1 =>
        r1.fetch_flit t
      else
        (r0.switch_traverse t).bind fun r1 =>
        r1.switch_alloc.bind fun r2 =>
        r2.vc_alloc.bind fun r3 =>
        r3.route_compute.bind fun r4 =>
        r4.credit_update.bind fun r5 =>
        (r5.fetch_credit t).bind fun r6 =>
        r6.fetch_flit t
    match step with
    | none => none
    | some r1 =>
      match r1.update_states with
      | none => none
      | some r2 =>
        let r3 := r2.do_reschedule t
        some { r3 with last_tick := (t : Int) }

/-! ## Specification-side definitions

These restate, in the spec's vocabulary, the predicates and the scan order
that the arbiter loops are claimed to implement, and the commit operation
claimed for `update_states`.  They are compared against the translated
code above. -/

/-- A VC-allocation requester in the spec's words: `global == VCWait` and
`route_port == out_port`. -/
def vc_candidate (units : List InputUnit) (out_port : Int) (i : Nat) : Bool :=
  decide ((units.getD i default).global = GlobalState.vcwait ∧
    (units.getD i default).route_port = out_port)

/-- A switch-allocation requester in the spec's words: `stage == SA`,
`route_port == out_port` and `global == Active`. -/
def sa_candidate (units : List InputUnit) (out_port : Int) (i : Nat) : Bool :=
  decide ((units.getD i default).stage = PipelineStage.sa ∧
    (units.getD i default).route_port = out_port ∧
    (units.getD i default).global = GlobalState.active)

/-- The round-robin scan order: `n` port indices starting at `start`,
wrapping modulo `radix`. -/
def rotation (radix start n : Nat) : List Nat :=
  (List.range n).map (fun j => (start + j) % radix)

/-- The `update_states` commit on an input unit. -/
def commit_input (iu : InputUnit) : InputUnit := { iu with global := iu.next_global }

/-- The `update_states` commit on an output unit. -/
def commit_output (ou : OutputUnit) : OutputUnit := { ou with global := ou.next_global }

/-- The protocol error checked by `update_states`: an output unit about to
commit a state change to `CreditWait` while it still has credits. -/
def output_commit_violation (ou : OutputUnit) : Prop :=
  ou.global ≠ ou.next_global ∧ ou.next_global = GlobalState.credwait ∧
    0 < ou.credit_count

instance (ou : OutputUnit) : Decidable (output_commit_violation ou) := by
  unfold output_commit_violation
  infer_instance

/-- Whether committing a port's pair of units changes either state. -/
def unit_changed (p : InputUnit × OutputUnit) : Bool :=
  decide (p.1.global ≠ p.1.next_global) || decide (p.2.global ≠ p.2.next_global)

/-- The flit one `source_generate` call is claimed to construct: type Head
(with the source route computed) when the payload counter is 0, Tail when
it is 3, Body otherwise; destination hardcoded to `(id + 2) % 4`. -/
def spec_source_flit (r : Router) : Flit :=
  { type :=
      if r.flit_payload_counter = 0 then FlitType.head
      else if r.flit_payload_counter = 3 then FlitType.tail
      else FlitType.body,
    route_info :=
      { src := r.id.value,
        dst := (r.id.value + 2).tmod 4,
        path :=
          if r.flit_payload_counter = 0 then
            source_route_compute r.top_desc r.id.value ((r.id.value + 2).tmod 4)
          else [],
        idx := 0 },
    payload := r.flit_payload_counter }

/-- The payload-counter update performed by one `source_generate` call. -/
def spec_source_counter (c : Int) : Int :=
  if c = 0 then c + 1 else if c = 3 then 0 else c + 1

/-! ## Concrete example states

Used to exercise the theorems below on explicit inputs. -/

/-- A ring port pair: router 0, clockwise port. -/
def exPortA : RouterPortPair := ⟨⟨IdKind.rtr, 0⟩, 2⟩

/-- A ring port pair: router 1, counter-clockwise port. -/
def exPortB : RouterPortPair := ⟨⟨IdKind.rtr, 1⟩, 1⟩

/-- The topology after connecting `exPortA` to `exPortB` once. -/
def exTopology1 : Topology := (topology_connect ⟨[], []⟩ exPortA exPortB).2

/-- A tail flit of the packet 0 → 2 whose route is exhausted up to eject. -/
def exFlitTail : Flit := ⟨FlitType.tail, ⟨0, 2, [2, 0], 2⟩, 3⟩

/-- An input unit holding `exFlitTail`, active in the SA stage towards
output port 0. -/
def exActiveInput : InputUnit :=
  ⟨GlobalState.active, GlobalState.active, 0, 0, PipelineStage.sa, [exFlitTail], none⟩

/-- An active output unit fed by input port 0, with 2 credits. -/
def exActiveOutput : OutputUnit :=
  ⟨GlobalState.active, GlobalState.active, 0, 0, 2, none⟩

/-- A single-port router in the middle of forwarding `exFlitTail`. -/
def exSwitchRouter : Router :=
  { id := ⟨IdKind.rtr, 0⟩,
    flit_arrive_count := 0, flit_gen_count := 0,
    top_desc := ⟨4, 1⟩, input_buf_size := 3,
    last_tick := -1, last_reschedule_tick := -1,
    flit_payload_counter := 0, reschedule_next_tick := false,
    input_channels := [⟨1, [], []⟩],
    output_channels := [⟨1, [], []⟩],
    input_units := [exActiveInput],
    output_units := [exActiveOutput],
    va_last_grant_input := 0, sa_last_grant_input := 0,
    double_tick_count := 0 }

/-- An idle output unit out of credits, holding a parked credit. -/
def exCreditOutput : OutputUnit :=
  ⟨GlobalState.idle, GlobalState.idle, 0, 0, 0, some Credit.mk⟩

/-- A single-port router whose only output unit is `exCreditOutput` and
whose only input unit is idle: no unit is waiting for credit. -/
def exCreditRouter : Router :=
  { exSwitchRouter with
    input_units := [input_unit_create],
    output_units := [exCreditOutput] }

/-- A source node with full credits about to emit the head of a packet. -/
def exSrcRouter : Router :=
  { exSwitchRouter with
    id := ⟨IdKind.src, 0⟩,
    input_units := [input_unit_create],
    output_units := [output_unit_create 3] }

/-! ## Helper lemmas -/

theorem arrputN_eq_append_replicate (v : Int) :
    ∀ (n : Nat) (path : List Int), arrputN path v n = path ++ List.replicate n v := by
  intro n
  induction n with
  | zero => intro path; simp [arrputN]
  | succ m ih =>
    intro path
    rw [arrputN, ih]
    simp [List.replicate_succ]

theorem hmget_hmput_self (m : HMap) (k : RouterPortPair) (v : Connection) :
    hmget (hmput m k v) k = some v := by
  induction m with
  | nil => simp [hmput, hmget, List.find?]
  | cons e rest ih =>
    by_cases h : e.1 = k
    · simp [hmput, h, hmget, List.find?]
    · simp only [hmput, if_neg h]
      simp only [hmget, List.find?] at ih ⊢
      simp [h, ih]

theorem rotation_succ (radix start n : Nat) :
    rotation radix start (n + 1) = (start % radix) :: rotation radix (start + 1) n := by
  unfold rotation
  rw [List.range_succ_eq_map]
  simp only [List.map_cons, List.map_map, Nat.add_zero, List.cons.injEq,
    true_and]
  apply List.map_congr_left
  intro a _
  simp only [Function.comp_apply, Nat.succ_eq_add_one]
  congr 1
  omega

theorem rotation_mem_lt (radix start n : Nat) (hr : 0 < radix) :
    ∀ x ∈ rotation radix start n, x < radix := by
  intro x hx
  unfold rotation at hx
  obtain ⟨j, _, hj⟩ := List.mem_map.mp hx
  rw [← hj]
  exact Nat.mod_lt _ hr

theorem rotation_covers (radix start : Nat) (hs : start < radix) (i : Nat)
    (hi : i < radix) : i ∈ rotation radix start radix := by
  unfold rotation
  apply List.mem_map.mpr
  by_cases h : start ≤ i
  · refine ⟨i - start, ?_, ?_⟩
    · exact List.mem_range.mpr (by omega)
    · rw [show start + (i - start) = i by omega]
      exact Nat.mod_eq_of_lt hi
  · refine ⟨radix + i - start, ?_, ?_⟩
    · exact List.mem_range.mpr (by omega)
    · rw [show start + (radix + i - start) = radix + i by omega]
      rw [Nat.add_mod_left]
      exact Nat.mod_eq_of_lt hi

theorem sa_arbit_loop_eq_find (units : List InputUnit) (op : Int) (radix : Nat)
    (hr : 0 < radix) :
    ∀ (n start : Nat), start < radix →
      sa_arbit_loop units op radix n start =
        (rotation radix start n).find? (sa_candidate units op) := by
  intro n
  induction n with
  | zero => intro start _; rfl
  | succ m ih =>
    intro start hs
    rw [rotation_succ, Nat.mod_eq_of_lt hs, sa_arbit_loop]
    by_cases hc : sa_candidate units op start = true
    · have hp : (units.getD start default).stage = PipelineStage.sa ∧
          (units.getD start default).route_port = op ∧
          (units.getD start default).global = GlobalState.active := by
        simpa [sa_candidate] using hc
      rw [if_pos hp, List.find?_cons_of_pos _ hc]
    · have hp : ¬((units.getD start default).stage = PipelineStage.sa ∧
          (units.getD start default).route_port = op ∧
          (units.getD start default).global = GlobalState.active) := by
        simpa [sa_candidate] using hc
      rw [if_neg hp, List.find?_cons_of_neg _ (by simpa using hc),
        ih ((start + 1) % radix) (Nat.mod_lt _ hr)]
      unfold rotation
      apply congrArg
      apply List.map_congr_left
      intro a _
      exact Nat.mod_add_mod _ _ _

theorem vc_arbit_loop_eq_find (units : List InputUnit) (op : Int) (radix : Nat)
    (hr : 0 < radix)
    (hcoh : ∀ i, i < radix → vc_candidate units op i = true →
      (units.getD i default).stage = PipelineStage.va) :
    ∀ (n start : Nat), start < radix →
      vc_arbit_loop units op radix n start =
        some ((rotation radix start n).find? (vc_candidate units op)) := by
  intro n
  induction n with
  | zero => intro start _; rfl
  | succ m ih =>
    intro start hs
    rw [rotation_succ, Nat.mod_eq_of_lt hs, vc_arbit_loop]
    by_cases hc : vc_candidate units op start = true
    · have hp : (units.getD start default).global = GlobalState.vcwait ∧
          (units.getD start default).route_port = op := by
        simpa [vc_candidate] using hc
      rw [if_pos hp, if_pos (hcoh start hs hc), List.find?_cons_of_pos _ hc]
    · have hp : ¬((units.getD start default).global = GlobalState.vcwait ∧
          (units.getD start default).route_port = op) := by
        simpa [vc_candidate] using hc
      rw [if_neg hp, List.find?_cons_of_neg _ (by simpa using hc),
        ih ((start + 1) % radix) (Nat.mod_lt _ hr)]
      apply congrArg
      apply congrArg
      unfold rotation
      apply List.map_congr_left
      intro a _
      exact Nat.mod_add_mod _ _ _

theorem sa_arbit_loop_grant (units : List InputUnit) (op : Int) (radix : Nat) :
    ∀ (n start ip : Nat), sa_arbit_loop units op radix n start = some ip →
      sa_candidate units op ip = true := by
  intro n
  induction n with
  | zero => intro start ip h; exact absurd h (by rw [sa_arbit_loop]; simp)
  | succ m ih =>
    intro start ip h
    rw [sa_arbit_loop] at h
    by_cases hp : (units.getD start default).stage = PipelineStage.sa ∧
        (units.getD start default).route_port = op ∧
        (units.getD start default).global = GlobalState.active
    · rw [if_pos hp] at h
      obtain rfl : start = ip := by simpa using h
      exact decide_eq_true hp
    · rw [if_neg hp] at h
      exact ih _ _ h

/-- Unpacking a successful `sa_arbit_round_robin`: the full result pair and
the fact that the granted input port is an SA requester. -/
theorem sa_arbit_grant (r : Router) (op : Int) (ip : Nat)
    (h : (r.sa_arbit_round_robin op).1 = some ip) :
    r.sa_arbit_round_robin op = (some ip, { r with sa_last_grant_input := ip }) ∧
    sa_candidate r.input_units op ip = true := by
  unfold Router.sa_arbit_round_robin at h ⊢
  rcases hl : sa_arbit_loop r.input_units op r.get_radix r.get_radix
      ((r.sa_last_grant_input + 1) % r.get_radix) with _ | j
  · simp only [hl] at h
    simp at h
  · simp only [hl] at h ⊢
    obtain rfl : j = ip := by simpa using h
    exact ⟨rfl, sa_arbit_loop_grant r.input_units op r.get_radix _ _ _ hl⟩

theorem commit_input_self (iu : InputUnit) (h : iu.global = iu.next_global) :
    commit_input iu = iu := by
  cases iu
  simp_all [commit_input]

theorem commit_output_self (ou : OutputUnit) (h : ou.global = ou.next_global) :
    commit_output ou = ou := by
  cases ou
  simp_all [commit_output]

theorem update_states_aux_eq :
    ∀ (ius : List InputUnit) (ous : List OutputUnit),
      ius.length = ous.length →
      (∀ p, p < ius.length → ¬ output_commit_violation (ous.getD p default)) →
      update_states_aux ius ous =
        some (ius.map commit_input, ous.map commit_output,
          (ius.zip ous).any unit_changed) := by
  intro ius
  induction ius with
  | nil =>
    intro ous hlen _
    cases ous with
    | nil => rfl
    | cons ou otl => simp at hlen
  | cons iu itl ih =>
    intro ous hlen hv
    cases ous with
    | nil => simp at hlen
    | cons ou otl =>
      have hlen' : itl.length = otl.length := by simpa using hlen
      have hv0 : ¬ output_commit_violation ou := by
        simpa using hv 0 (by simp)
      have hv' : ∀ p, p < itl.length →
          ¬ output_commit_violation (otl.getD p default) := by
        intro p hp
        simpa using hv (p + 1) (by simpa using Nat.succ_lt_succ hp)
      simp only [update_states_aux]
      by_cases hch : ou.global ≠ ou.next_global
      · have hnv : ¬(ou.next_global = GlobalState.credwait ∧ 0 < ou.credit_count) :=
          fun hx => hv0 ⟨hch, hx.1, hx.2⟩
        rw [if_pos hch, if_neg hnv, ih otl hlen' hv']
        by_cases hchi : iu.global ≠ iu.next_global
        · simp [hchi, hch, commit_input, commit_output, unit_changed]
        · simp [hchi, hch, commit_input_self iu (not_not.mp hchi), commit_output,
            unit_changed]
      · rw [if_neg hch, ih otl hlen' hv']
        by_cases hchi : iu.global ≠ iu.next_global
        · simp [hchi, hch, commit_input, commit_output_self ou (not_not.mp hch),
            unit_changed]
        · simp [hchi, hch, commit_input_self iu (not_not.mp hchi),
            commit_output_self ou (not_not.mp hch), unit_changed]

theorem update_states_aux_none_iff :
    ∀ (ius : List InputUnit) (ous : List OutputUnit),
      ius.length = ous.length →
      (update_states_aux ius ous = none ↔
        ∃ p, p < ius.length ∧ output_commit_violation (ous.getD p default)) := by
  intro ius
  induction ius with
  | nil =>
    intro ous hlen
    cases ous with
    | nil => simp [update_states_aux]
    | cons ou otl => simp at hlen
  | cons iu itl ih =>
    intro ous hlen
    cases ous with
    | nil => simp at hlen
    | cons ou otl =>
      have hlen' : itl.length = otl.length := by simpa using hlen
      simp only [update_states_aux]
      by_cases hch : ou.global ≠ ou.next_global
      · rw [if_pos hch]
        by_cases hnv : ou.next_global = GlobalState.credwait ∧ 0 < ou.credit_count
        · rw [if_pos hnv]
          constructor
          · intro _
            exact ⟨0, by simp, hch, hnv.1, hnv.2⟩
          · intro _
            rfl
        · rw [if_neg hnv]
          rcases haux : update_states_aux itl otl with _ | trip
          · constructor
            · intro _
              obtain ⟨p, hp, hviol⟩ := (ih otl hlen').mp haux
              refine ⟨p + 1, ?_, ?_⟩
              · simp only [List.length_cons]
                omega
              · simpa using hviol
            · intro _
              rfl
          · constructor
            · intro hcontra
              exact absurd hcontra (by simp)
            · rintro ⟨p, hp, hviol⟩
              exfalso
              match p, hp, hviol with
              | 0, hp, hviol =>
                simp only [List.getD_cons_zero] at hviol
                exact hnv ⟨hviol.2.1, hviol.2.2⟩
              | q + 1, hp, hviol =>
                simp only [List.getD_cons_succ] at hviol
                have hq : q < itl.length := by
                  simp only [List.length_cons] at hp
                  omega
                have hnone : update_states_aux itl otl = none :=
                  (ih otl hlen').mpr ⟨q, hq, hviol⟩
                rw [haux] at hnone
                exact absurd hnone (by simp)
      · rw [if_neg hch]
        rcases haux : update_states_aux itl otl with _ | trip
        · constructor
          · intro _
            obtain ⟨p, hp, hviol⟩ := (ih otl hlen').mp haux
            refine ⟨p + 1, ?_, ?_⟩
            · simp only [List.length_cons]
              omega
            · simpa using hviol
          · intro _
            rfl
        · constructor
          · intro hcontra
            exact absurd hcontra (by simp)
          · rintro ⟨p, hp, hviol⟩
            exfalso
            match p, hp, hviol with
            | 0, hp, hviol =>
              simp only [List.getD_cons_zero] at hviol
              exact hch hviol.1
            | q + 1, hp, hviol =>
              simp only [List.getD_cons_succ] at hviol
              have hq : q < itl.length := by
                simp only [List.length_cons] at hp
                omega
              have hnone : update_states_aux itl otl = none :=
                (ih otl hlen').mpr ⟨q, hq, hviol⟩
              rw [haux] at hnone
              exact absurd hnone (by simp)

theorem zip_any_changed_iff :
    ∀ (ius : List InputUnit) (ous : List OutputUnit),
      ius.length = ous.length →
      ((ius.zip ous).any unit_changed = true ↔
        ∃ p, p < ius.length ∧
          ((ius.getD p default).global ≠ (ius.getD p default).next_global ∨
            (ous.getD p default).global ≠ (ous.getD p default).next_global)) := by
  intro ius
  induction ius with
  | nil =>
    intro ous _
    simp
  | cons iu itl ih =>
    intro ous hlen
    cases ous with
    | nil => simp at hlen
    | cons ou otl =>
      have hlen' : itl.length = otl.length := by simpa using hlen
      simp only [List.zip_cons_cons, List.any_cons, Bool.or_eq_true,
        ih otl hlen']
      constructor
      · intro h
        rcases h with h1 | ⟨p, hp, hP⟩
        · refine ⟨0, by simp, ?_⟩
          simpa [unit_changed, List.getD_cons_zero] using h1
        · refine ⟨p + 1, ?_, ?_⟩
          · simp only [List.length_cons]
            omega
          · simpa using hP
      · rintro ⟨p, hp, hP⟩
        match p, hp, hP with
        | 0, hp, hP =>
          left
          simp only [List.getD_cons_zero] at hP
          simpa [unit_changed] using hP
        | q + 1, hp, hP =>
          right
          have hq : q < itl.length := by
            simp only [List.length_cons] at hp
            omega
          simp only [List.getD_cons_succ] at hP
          exact ⟨q, hq, hP⟩

/-! ## Claim theorems -/

/-- C1: for a ring of size `k` and node indices `src, dst < k` with clockwise
distance `d = (dst - src + k) mod k`, `source_route_compute` returns `d`
copies of port 2 followed by port 0 when `d ≤ k / 2`, else `k - d` copies of
port 1 followed by port 0; in particular `source_route_compute td s s = [0]`. -/
theorem C1_source_route_compute_spec (td : TopoDesc) (src dst : Int)
    (hk : 0 < td.k) (_hs0 : 0 ≤ src) (hs : src < td.k) (hd0 : 0 ≤ dst)
    (_hd : dst < td.k) :
    (source_route_compute td src dst =
      (if (dst - src + td.k) % td.k ≤ td.k / 2 then
        List.replicate ((dst - src + td.k) % td.k).toNat 2 ++ [0]
      else
        List.replicate (td.k - (dst - src + td.k) % td.k).toNat 1 ++ [0])) ∧
    source_route_compute td src src = [0] := by
  have hnum : 0 ≤ dst - src + td.k := by omega
  have htmod : (dst - src + td.k).tmod td.k = (dst - src + td.k) % td.k :=
    Int.tmod_eq_emod hnum (le_of_lt hk)
  have htdiv : td.k.tdiv 2 = td.k / 2 :=
    Int.tdiv_eq_ediv (le_of_lt hk) (by norm_num)
  constructor
  · rw [source_route_compute]
    simp only [htmod, htdiv, arrputN_eq_append_replicate, List.nil_append]
  · have hm : (src - src + td.k).tmod td.k = 0 := by
      simp [Int.add_comm, Int.tmod_self, sub_self]
    rw [source_route_compute]
    simp only [hm]
    have : (0 : Int) ≤ td.k.tdiv 2 := by
      rw [htdiv]
      positivity
    simp [this, arrputN]

/-- C2: a channel with delay `D` appends items stamped `t + D` on
`put`/`put_credit`; `get`/`get_credit` at a time strictly before the head's
release time (or on an empty buffer) return nothing and leave the buffer
unchanged, at the release time they pop and return the head, and after the
release time they fail the stagnant-flit assertion. -/
theorem C2_channel_spec (c : ChannelState) (t : Nat) (f : Flit) (cr : Credit) :
    (ChannelState.put t f c = { c with buf := c.buf ++ [(t + c.delay, f)] }) ∧
    (ChannelState.put_credit t cr c =
      { c with buf_credit := c.buf_credit ++ [(t + c.delay, cr)] }) ∧
    (c.buf = [] → ChannelState.get t c = some (none, c)) ∧
    (∀ rt x rest, c.buf = (rt, x) :: rest →
      (t < rt → ChannelState.get t c = some (none, c)) ∧
      (t = rt → ChannelState.get t c = some (some x, { c with buf := rest })) ∧
      (rt < t → ChannelState.get t c = none)) ∧
    (c.buf_credit = [] → ChannelState.get_credit t c = some (none, c)) ∧
    (∀ rt x rest, c.buf_credit = (rt, x) :: rest →
      (t < rt → ChannelState.get_credit t c = some (none, c)) ∧
      (t = rt →
        ChannelState.get_credit t c = some (some x, { c with buf_credit := rest })) ∧
      (rt < t → ChannelState.get_credit t c = none)) := by
  obtain ⟨d, buf, bufc⟩ := c
  refine ⟨rfl, rfl, ?_, ?_, ?_, ?_⟩
  · intro h
    subst h
    simp [ChannelState.get, chanGet]
  · intro rt x rest h
    subst h
    refine ⟨?_, ?_, ?_⟩
    · intro hlt
      simp [ChannelState.get, chanGet, Nat.not_le.mpr hlt]
    · intro he
      subst he
      simp [ChannelState.get, chanGet]
    · intro hgt
      simp [ChannelState.get, chanGet, Nat.le_of_lt hgt, Nat.ne_of_gt hgt]
  · intro h
    subst h
    simp [ChannelState.get_credit, chanGet]
  · intro rt x rest h
    subst h
    refine ⟨?_, ?_, ?_⟩
    · intro hlt
      simp [ChannelState.get_credit, chanGet, Nat.not_le.mpr hlt]
    · intro he
      subst he
      simp [ChannelState.get_credit, chanGet]
    · intro hgt
      simp [ChannelState.get_credit, chanGet, Nat.le_of_lt hgt, Nat.ne_of_gt hgt]

/-- C6: `topology_connect` fails exactly when the source side is already a
forward key or the destination side is already a reverse key; a failing
connect leaves both maps unchanged; and a second `connect(a, b)` after a
successful one fails and changes nothing. -/
theorem C6_topology_connect_spec (t : Topology) (a b : RouterPortPair) :
    ((topology_connect t a b).1 = false ↔
      (hmget t.forward_hash a).isSome ∨ (hmget t.reverse_hash b).isSome) ∧
    ((topology_connect t a b).1 = false → (topology_connect t a b).2 = t) ∧
    (∀ t', topology_connect t a b = (true, t') →
      (topology_connect t' a b).1 = false ∧ (topology_connect t' a b).2 = t') := by
  by_cases h :
      (hmget t.forward_hash a).isSome ∨ (hmget t.reverse_hash b).isSome
  · refine ⟨⟨fun _ => h, fun _ => ?_⟩, fun _ => ?_, fun t' ht' => ?_⟩
    · simp [topology_connect, h]
    · simp [topology_connect, h]
    · exfalso
      simp [topology_connect, h] at ht'
  · constructor
    · simp [topology_connect, h]
    constructor
    · simp [topology_connect, h]
    · intro t' ht'
      simp only [topology_connect, if_neg h, Prod.mk.injEq] at ht'
      have hfwd : (hmget t'.forward_hash a).isSome := by
        rw [← ht'.2]
        simp [hmget_hmput_self]
      have hcond :
          (hmget t'.forward_hash a).isSome ∨ (hmget t'.reverse_hash b).isSome :=
        Or.inl hfwd
      constructor
      · simp [topology_connect, hcond]
      · simp [topology_connect, hcond]

/-- Witness for C1: on the ring of 4, route 0 → 3 goes one hop
counter-clockwise and ejects. -/
theorem C1_source_route_compute_spec_witness :
    source_route_compute ⟨4, 1⟩ 0 3 = List.replicate 1 1 ++ [0] ∧
    source_route_compute ⟨4, 1⟩ 2 2 = [0] := by
  have h := C1_source_route_compute_spec ⟨4, 1⟩ 2 3 (by decide) (by decide)
    (by decide) (by decide) (by decide)
  have h0 := C1_source_route_compute_spec ⟨4, 1⟩ 0 3 (by decide) (by decide)
    (by decide) (by decide) (by decide)
  refine ⟨?_, ?_⟩
  · rw [h0.1]; decide
  · have h2 := C1_source_route_compute_spec ⟨4, 1⟩ 2 2 (by decide) (by decide)
      (by decide) (by decide) (by decide)
    exact h2.2

/-- Witness for C2: a get at time 3 on a channel whose head releases at 5
returns nothing and leaves the channel unchanged. -/
theorem C2_channel_spec_witness :
    ChannelState.get 3 ⟨1, [(5, default)], []⟩ =
      some (none, ⟨1, [(5, default)], []⟩) := by
  have h := C2_channel_spec ⟨1, [(5, default)], []⟩ 3 default Credit.mk
  exact (h.2.2.2.1 5 default [] rfl).1 (by decide)

/-- Witness for C6: re-connecting `exPortA → exPortB` fails and leaves the
topology unchanged. -/
theorem C6_topology_connect_spec_witness :
    (topology_connect exTopology1 exPortA exPortB).1 = false ∧
    (topology_connect exTopology1 exPortA exPortB).2 = exTopology1 :=
  (C6_topology_connect_spec ⟨[], []⟩ exPortA exPortB).2.2 exTopology1 (by decide)

/-- C9: a tick at a time equal to `last_tick` returns immediately after
incrementing `double_tick_count`, leaving every other field of the node
(units, buffers, channels, counters) unchanged — each node performs
pipeline work at most once per cycle. -/
theorem C9_double_tick_suppression (r : Router) (t : Nat)
    (h : (t : Int) = r.last_tick) :
    Router.tick t r = some { r with double_tick_count := r.double_tick_count + 1 } := by
  rw [Router.tick, if_pos h]

/-- Witness for C9: ticking the example router twice at time 5 only bumps
the double-tick counter. -/
theorem C9_double_tick_suppression_witness :
    Router.tick 5 { exSwitchRouter with last_tick := 5 } =
      some { exSwitchRouter with last_tick := 5, double_tick_count := 1 } := by
  have h := C9_double_tick_suppression { exSwitchRouter with last_tick := 5 } 5 rfl
  rw [h]
  decide

/-- C7: on a source-node tick, a zero credit count means a logged stall and
no state change; otherwise one flit is built (`spec_source_flit`: Head with
the route path when the per-source counter is 0, Tail resetting the counter
when it is 3, Body otherwise), pushed on the single output channel, the
credit count is decremented and reschedule is marked. -/
theorem C7_source_generate_spec (r : Router) (t : Nat) (och : ChannelState)
    (ochtl : List ChannelState)
    (hch : r.output_channels = och :: ochtl)
    (hradix : r.get_radix = 1) :
    ((r.output_units.getD 0 default).credit_count = 0 →
      Router.source_generate t r = some r) ∧
    (0 < (r.output_units.getD 0 default).credit_count →
      Router.source_generate t r = some { r with
        output_channels := och.put t (spec_source_flit r) :: ochtl,
        output_units := r.output_units.set 0
          { r.output_units.getD 0 default with
            credit_count := (r.output_units.getD 0 default).credit_count - 1 },
        flit_payload_counter := spec_source_counter r.flit_payload_counter,
        flit_gen_count := r.flit_gen_count + 1,
        reschedule_next_tick := true }) := by
  constructor
  · intro h0
    rw [Router.source_generate, if_pos (by rw [h0])]
  · intro hpos
    rw [Router.source_generate, if_neg (by omega), if_pos hradix, hch]
    by_cases hc0 : r.flit_payload_counter = 0
    · simp [hc0, spec_source_flit, spec_source_counter]
    · by_cases hc3 : r.flit_payload_counter = 3
      · simp [hc0, hc3, spec_source_flit, spec_source_counter]
      · simp [hc0, hc3, spec_source_flit, spec_source_counter]

/-- Witness for C7: the example source emits a Head flit with the computed
ring route and goes from 3 to 2 credits. -/
theorem C7_source_generate_spec_witness :
    Router.source_generate 0 exSrcRouter = some { exSrcRouter with
      output_channels :=
        [⟨1, [(1, ⟨FlitType.head, ⟨0, 2, [2, 2, 0], 0⟩, 0⟩)], []⟩],
      output_units := [{ output_unit_create 3 with credit_count := 2 }],
      flit_payload_counter := 1,
      flit_gen_count := 1,
      reschedule_next_tick := true } := by
  have h := (C7_source_generate_spec exSrcRouter 0 ⟨1, [], []⟩ [] rfl rfl).2 (by decide)
  rw [h]
  decide

/-- C10: every flit a source with index `i` generates is addressed to node
`(i + 2) mod 4` (C truncated `%`), whatever the topology descriptor is: the
traffic pattern is hardcoded.  (The modelled `Router` state has no
terminal-count field at all; the destination depends only on `id.value`.) -/
theorem C10_hardcoded_traffic (r : Router) (t : Nat) (och : ChannelState)
    (ochtl : List ChannelState) (td' : TopoDesc)
    (hch : r.output_channels = och :: ochtl)
    (hradix : r.get_radix = 1)
    (hcr : 0 < (r.output_units.getD 0 default).credit_count) :
    ∃ r', Router.source_generate t { r with top_desc := td' } = some r' ∧
      ((r'.output_channels.getD 0 default).buf.getLast?).map
          (fun p => p.2.route_info.dst) =
        some ((r.id.value + 2).tmod 4) := by
  rw [Router.source_generate]
  rw [if_neg (by simp only []; omega)]
  have hradix' : Router.get_radix { r with top_desc := td' } = 1 := hradix
  rw [if_pos hradix']
  simp only []
  rw [hch]
  refine ⟨_, rfl, ?_⟩
  by_cases hc0 : r.flit_payload_counter = 0
  · simp [hc0, ChannelState.put, chanPut]
  · by_cases hc3 : r.flit_payload_counter = 3
    · simp [hc0, hc3, ChannelState.put, chanPut]
    · simp [hc0, hc3, ChannelState.put, chanPut]

/-- Witness for C10: source 1 addresses its flits to node 3 under an
arbitrary topology descriptor. -/
theorem C10_hardcoded_traffic_witness :
    ∃ r', Router.source_generate 0
        { exSrcRouter with id := ⟨IdKind.src, 1⟩, top_desc := ⟨9, 7⟩ } = some r' ∧
      ((r'.output_channels.getD 0 default).buf.getLast?).map
          (fun p => p.2.route_info.dst) = some 3 :=
  C10_hardcoded_traffic { exSrcRouter with id := ⟨IdKind.src, 1⟩ } 0 ⟨1, [], []⟩ []
    ⟨9, 7⟩ rfl rfl (by decide)

/-- C5: both arbiters scan the input ports round-robin starting one past
their own last-grant pointer: the result is the first port in that scan
order satisfying the respective request predicate (`vc_candidate`:
`global == VCWait` and `route_port == out_port`; `sa_candidate`:
`stage == SA`, `route_port == out_port` and `global == Active`, so
`CreditWait` inputs are skipped), the pointer is updated only on a grant,
and with no candidate both return "no grant" (the C functions' `-1`,
modelled as `none`) leaving the pointer unchanged. -/
theorem C5_arbiters_spec (r : Router) (out_port : Int)
    (hr : 0 < r.get_radix)
    (hcoh : ∀ i, i < r.get_radix → vc_candidate r.input_units out_port i = true →
      (r.input_units.getD i default).stage = PipelineStage.va) :
    (∀ ip, (rotation r.get_radix ((r.va_last_grant_input + 1) % r.get_radix)
        r.get_radix).find? (vc_candidate r.input_units out_port) = some ip →
      r.vc_arbit_round_robin out_port =
        some (some ip, { r with va_last_grant_input := ip })) ∧
    ((rotation r.get_radix ((r.va_last_grant_input + 1) % r.get_radix)
        r.get_radix).find? (vc_candidate r.input_units out_port) = none →
      r.vc_arbit_round_robin out_port = some (none, r)) ∧
    (∀ ip, (rotation r.get_radix ((r.sa_last_grant_input + 1) % r.get_radix)
        r.get_radix).find? (sa_candidate r.input_units out_port) = some ip →
      r.sa_arbit_round_robin out_port =
        (some ip, { r with sa_last_grant_input := ip })) ∧
    ((rotation r.get_radix ((r.sa_last_grant_input + 1) % r.get_radix)
        r.get_radix).find? (sa_candidate r.input_units out_port) = none →
      r.sa_arbit_round_robin out_port = (none, r)) ∧
    ((∀ i, i < r.get_radix → sa_candidate r.input_units out_port i = false) →
      (r.sa_arbit_round_robin out_port).1 = none) ∧
    ((∀ i, i < r.get_radix → vc_candidate r.input_units out_port i = false) →
      r.vc_arbit_round_robin out_port = some (none, r)) := by
  have hvstart : (r.va_last_grant_input + 1) % r.get_radix < r.get_radix :=
    Nat.mod_lt _ hr
  have hsstart : (r.sa_last_grant_input + 1) % r.get_radix < r.get_radix :=
    Nat.mod_lt _ hr
  have hvloop := vc_arbit_loop_eq_find r.input_units out_port r.get_radix hr hcoh
    r.get_radix _ hvstart
  have hsloop := sa_arbit_loop_eq_find r.input_units out_port r.get_radix hr
    r.get_radix _ hsstart
  refine ⟨?_, ?_, ?_, ?_, ?_, ?_⟩
  · intro ip hf
    unfold Router.vc_arbit_round_robin
    simp only [hvloop, hf]
  · intro hf
    unfold Router.vc_arbit_round_robin
    simp only [hvloop, hf]
  · intro ip hf
    unfold Router.sa_arbit_round_robin
    simp only [hsloop, hf]
  · intro hf
    unfold Router.sa_arbit_round_robin
    simp only [hsloop, hf]
  · intro hall
    have hf : (rotation r.get_radix ((r.sa_last_grant_input + 1) % r.get_radix)
        r.get_radix).find? (sa_candidate r.input_units out_port) = none := by
      apply List.find?_eq_none.mpr
      intro x hx
      have := hall x (rotation_mem_lt _ _ _ hr x hx)
      simp [this]
    unfold Router.sa_arbit_round_robin
    simp only [hsloop, hf]
  · intro hall
    have hf : (rotation r.get_radix ((r.va_last_grant_input + 1) % r.get_radix)
        r.get_radix).find? (vc_candidate r.input_units out_port) = none := by
      apply List.find?_eq_none.mpr
      intro x hx
      have := hall x (rotation_mem_lt _ _ _ hr x hx)
      simp [this]
    unfold Router.vc_arbit_round_robin
    simp only [hvloop, hf]

/-- Witness for C5: on the one-port example router, the SA arbiter grants
input port 0 and records it in the last-grant pointer. -/
theorem C5_arbiters_spec_witness :
    exSwitchRouter.sa_arbit_round_robin 0 =
      (some 0, { exSwitchRouter with sa_last_grant_input := 0 }) := by
  have h := (C5_arbiters_spec exSwitchRouter 0 (by decide) (by decide)).2.2.1 0
    (by decide)
  exact h

/-- C3: when an output port is `Active` and the SA arbiter grants input
port `iport`, `switch_alloc` pops exactly the head flit of that input
buffer into `st_ready` (empty at entry), decrements the output credit count
(positive at entry), and sets the next states: Tail flit — output `Idle`,
input `Idle`/stage `Idle` if its buffer drained else `Routing`/stage `RC`;
non-tail with the credit count just hitting 0 — both `CreditWait`;
otherwise input stays `Active` in stage `SA`. -/
theorem C3_switch_alloc_spec (r : Router) (oport iport : Nat)
    (ou : OutputUnit) (iu : InputUnit) (flit : Flit) (rest : List Flit)
    (hou : r.output_units.getD oport default = ou)
    (hiu : r.input_units.getD iport default = iu)
    (hact : ou.global = GlobalState.active)
    (hgrant : (r.sa_arbit_round_robin (oport : Int)).1 = some iport)
    (hbuf : iu.buf = flit :: rest)
    (hst : iu.st_ready = none)
    (hcr : 0 < ou.credit_count) :
    switch_alloc_body oport r = some (
      if flit.type = FlitType.tail then
        { r with
          sa_last_grant_input := iport,
          input_units := r.input_units.set iport
            (if rest.isEmpty then
              { iu with
                buf := rest, st_ready := some flit,
                next_global := GlobalState.idle, stage := PipelineStage.idle }
            else
              { iu with
                buf := rest, st_ready := some flit,
                next_global := GlobalState.routing, stage := PipelineStage.rc }),
          output_units := r.output_units.set oport
            { ou with
              credit_count := ou.credit_count - 1,
              next_global := GlobalState.idle },
          reschedule_next_tick := true }
      else if ou.credit_count - 1 = 0 then
        { r with
          sa_last_grant_input := iport,
          input_units := r.input_units.set iport
            { iu with
              buf := rest, st_ready := some flit,
              next_global := GlobalState.credwait },
          output_units := r.output_units.set oport
            { ou with
              credit_count := ou.credit_count - 1,
              next_global := GlobalState.credwait } }
      else
        { r with
          sa_last_grant_input := iport,
          input_units := r.input_units.set iport
            { iu with
              buf := rest, st_ready := some flit,
              next_global := GlobalState.active, stage := PipelineStage.sa },
          output_units := r.output_units.set oport
            { ou with credit_count := ou.credit_count - 1 },
          reschedule_next_tick := true }) := by
  obtain ⟨harb, hcand⟩ := sa_arbit_grant r (oport : Int) iport hgrant
  have hcand' := of_decide_eq_true hcand
  rw [hiu] at hcand'
  unfold switch_alloc_body
  rw [hou, if_pos hact, harb]
  simp only [hiu, hbuf, hst]
  rw [if_pos hcand'.2.2, if_pos hcr]
  by_cases ht : flit.type = FlitType.tail
  · by_cases he : rest.isEmpty <;> simp [ht, he]
  · by_cases hz : ou.credit_count - 1 = 0 <;> simp [ht, hz]

/-- Witness for C3: the example router forwards its tail flit, the output
unit goes `Idle` with one credit spent, and the drained input unit goes
`Idle`. -/
theorem C3_switch_alloc_spec_witness :
    switch_alloc_body 0 exSwitchRouter = some { exSwitchRouter with
      input_units := [{ exActiveInput with
        buf := [], st_ready := some exFlitTail,
        next_global := GlobalState.idle, stage := PipelineStage.idle }],
      output_units := [{ exActiveOutput with
        credit_count := 1, next_global := GlobalState.idle }],
      reschedule_next_tick := true } := by
  have h := C3_switch_alloc_spec exSwitchRouter 0 0 exActiveOutput exActiveInput
    exFlitTail [] (by decide) (by decide) (by decide) (by decide) (by decide)
    (by decide) (by decide)
  rw [h]
  decide

/-- Counterexample for C4: on `exCreditRouter` the only output port holds a
parked credit with `credit_count == 0`, but neither unit is pending
`CreditWait` (both are `Idle`).  `credit_update` marks reschedule anyway,
so "marks reschedule exactly when such a wakeup occurred" is false: the
code marks reschedule whenever `credit_count == 0` at entry, wakeup or
not. -/
theorem C4_credit_update_counterexample :
    Router.credit_update exCreditRouter = some { exCreditRouter with
      output_units := [{ exCreditOutput with credit_count := 1, buf_credit := none }],
      reschedule_next_tick := true } ∧
    (exCreditRouter.output_units.getD 0 default).next_global ≠ GlobalState.credwait ∧
    (exCreditRouter.input_units.getD 0 default).next_global ≠ GlobalState.credwait ∧
    exCreditRouter.reschedule_next_tick = false := by
  refine ⟨?_, by decide, by decide, by decide⟩
  decide

/-- C4 (amended): for an output port holding a parked credit,
`credit_update` wakes both the output unit and its recorded input unit back
to `Active` exactly when the output unit is pending `CreditWait` with
`credit_count == 0` (the input unit is then asserted to be pending
`CreditWait` as well); it always increments `credit_count` and clears
`buf_credit`; and it marks reschedule exactly when `credit_count == 0` at
entry — with or without a wakeup. -/
theorem C4_credit_update_amended (r : Router) (oport : Nat)
    (ou : OutputUnit) (iu : InputUnit) (cr : Credit)
    (hou : r.output_units.getD oport default = ou)
    (hcred : ou.buf_credit = some cr)
    (hip : ou.input_port ≠ -1)
    (hiu : r.input_units.getD ou.input_port.toNat default = iu)
    (hassert : ou.credit_count = 0 → ou.next_global = GlobalState.credwait →
      iu.next_global = GlobalState.credwait) :
    credit_update_body oport r = some (
      if ou.credit_count = 0 ∧ ou.next_global = GlobalState.credwait then
        { r with
          input_units := r.input_units.set ou.input_port.toNat
            { iu with next_global := GlobalState.active },
          output_units := r.output_units.set oport
            { ou with
              next_global := GlobalState.active,
              credit_count := ou.credit_count + 1, buf_credit := none },
          reschedule_next_tick := true }
      else if ou.credit_count = 0 then
        { r with
          output_units := r.output_units.set oport
            { ou with credit_count := ou.credit_count + 1, buf_credit := none },
          reschedule_next_tick := true }
      else
        { r with
          output_units := r.output_units.set oport
            { ou with credit_count := ou.credit_count + 1, buf_credit := none } }) := by
  unfold credit_update_body
  rw [hou]
  simp only [hcred, if_neg hip, hiu]
  by_cases h0 : ou.credit_count = 0
  · by_cases hcw : ou.next_global = GlobalState.credwait
    · rw [if_pos h0, if_pos hcw, if_pos (hassert h0 hcw),
        if_pos ⟨h0, hcw⟩]
    · rw [if_pos h0, if_neg hcw, if_neg (by tauto), if_pos h0]
  · rw [if_neg h0, if_neg (by tauto), if_neg h0]

/-- Witness for C4 (amended): the example credit update increments the
credit count, clears the parked credit, and marks reschedule with no
wakeup. -/
theorem C4_credit_update_amended_witness :
    credit_update_body 0 exCreditRouter = some { exCreditRouter with
      output_units := [{ exCreditOutput with credit_count := 1, buf_credit := none }],
      reschedule_next_tick := true } := by
  have h := C4_credit_update_amended exCreditRouter 0 exCreditOutput
    input_unit_create Credit.mk (by decide) (by decide) (by decide) (by decide)
    (fun _ h2 => absurd h2 (by decide))
  rw [h]
  decide

/-- C8: `update_states` commits `next_global` to `global` for every input
and output unit; it marks reschedule if and only if at least one commit
changed a unit's state (the flag accumulates over the pre-existing value,
as `mark_reschedule` only sets it); and committing an output unit to
`CreditWait` while `credit_count > 0` is the protocol error that aborts. -/
theorem C8_update_states_spec (r : Router)
    (hlen : r.input_units.length = r.output_units.length) :
    (Router.update_states r = none ↔
      ∃ p, p < r.get_radix ∧
        output_commit_violation (r.output_units.getD p default)) ∧
    ((∀ p, p < r.get_radix →
        ¬ output_commit_violation (r.output_units.getD p default)) →
      Router.update_states r = some { r with
        input_units := r.input_units.map commit_input,
        output_units := r.output_units.map commit_output,
        reschedule_next_tick := r.reschedule_next_tick ||
          (r.input_units.zip r.output_units).any unit_changed }) ∧
    ((r.input_units.zip r.output_units).any unit_changed = true ↔
      ∃ p, p < r.get_radix ∧
        ((r.input_units.getD p default).global ≠
            (r.input_units.getD p default).next_global ∨
          (r.output_units.getD p default).global ≠
            (r.output_units.getD p default).next_global)) := by
  refine ⟨?_, ?_, zip_any_changed_iff r.input_units r.output_units hlen⟩
  · unfold Router.update_states
    constructor
    · intro h
      rcases haux : update_states_aux r.input_units r.output_units with _ | trip
      · exact (update_states_aux_none_iff _ _ hlen).mp haux
      · rw [haux] at h
        exact absurd h (by simp)
    · intro hex
      rw [(update_states_aux_none_iff _ _ hlen).mpr hex]
  · intro hall
    unfold Router.update_states
    rw [update_states_aux_eq _ _ hlen hall]

/-- Witness for C8: on the example router every unit already equals its
next state, so the commit is the identity and no reschedule is added. -/
theorem C8_update_states_spec_witness :
    Router.update_states exSwitchRouter = some exSwitchRouter := by
  have h := (C8_update_states_spec exSwitchRouter rfl).2.1 (by decide)
  rw [h]
  decide

end Netsim
